import Mathlib

/-!
Shallow embedding of the AT-HttpClient repository (an axios wrapper with
bearer-token injection, request/response logging interceptors, and optional
cache/retry adapter composition), together with theorems settling the
specification claims about it.

Source of truth: `src/unnamed/part_000` (class `HttpClient`) and
`src/src/util.ts` (`serializeError`).
-/

namespace ATHttpClient

/-- A JS `Record<string, string>` header object, modelled as a finite-support
map from header names to values; `none` means the key is absent. -/
abbrev Headers := String → Option String

/-- JS truthiness of a possibly-undefined string: `undefined` and the empty
string are falsy, every other string is truthy. -/
def truthy : Option String → Bool
  | none => false
  | some s => s != ""

/-- JS `a || b` on possibly-undefined strings: yields `a` when it is truthy,
otherwise `b`. -/
def jsOr (a b : Option String) : Option String :=
  if truthy a then a else b

/-- The sentinel message `invalidToken` at line 12 of the source. -/
def invalidToken : String := "Invalid token"

/-- Message of the error thrown by the request interceptor when the request
has no URL (line 64 of the source). -/
def missingUrlMessage : String := "HttpClient Error: \"url\" must be defined"

/-- Message of the configuration-conflict error thrown by
`createHeadersWithResolvedToken` (lines 116-118 of the source). -/
def authConflictMessage : String :=
  "Authorization header already specified, please create a new HttpClient with a different (or without a) tokenResolver"

/-- Outcome of one invocation of the caller-supplied `tokenResolver`: the
async function either resolves with a token string or rejects with an error
message. A configured client carries `Option TokenResolver` (`none` when no
resolver was supplied to the constructor). -/
abbrev TokenResolver := Except String String

/-- The object spread `\x7b ...headers, Authorization: Bearer token \x7d` at
lines 121-124 of the source: every key of `headers` is kept except that
`Authorization` is bound to the bearer value. -/
def setAuth (headers : Headers) (token : String) : Headers :=
  fun k => if k = "Authorization" then some ("Bearer " ++ token) else headers k

/-- `HttpClient.createHeadersWithResolvedToken` (lines 111-129 of the source).
The second component counts how many times the token resolver was invoked
during the call (0 or 1). The `truthy` test models the JS condition
`if (headers.Authorization)` at line 115, and an `Except.error` result models
a rejected promise, carrying the error message. -/
def createHeadersWithResolvedToken (tokenResolverFunction : Option TokenResolver)
    (headers : Headers) : Except String Headers × Nat :=
  match tokenResolverFunction with
  | some resolve =>
    if truthy (headers "Authorization") then
      (Except.error authConflictMessage, 0)
    else
      match resolve with
      | Except.ok token => (Except.ok (setAuth headers token), 1)
      | Except.error e => (Except.error e, 1)
  | none => (Except.ok headers, 0)

/-- The `headers: Record<string, string> = \x7b\x7d` default parameter: a call
site passing an absent `config.headers` yields the empty header object. -/
def headersArg (headers : Option Headers) : Headers :=
  headers.getD (fun _ => none)

/-- The subset of an `AxiosRequestConfig` that the embedded code reads or
writes: `url` and `method` (logged by the request interceptor), `headers` and
`responseType` (set by the verb methods), and `requestId` (read by the
response interceptor's error handler; the library itself never writes it). -/
structure RequestConfig where
  url : Option String := none
  method : Option String := none
  headers : Option Headers := none
  responseType : Option String := none
  requestId : Option String := none

/-- A structured log event passed to `logFunction`. Fields absent from a
given event are `none`. -/
structure LogEvent where
  title : String
  level : String
  requestId : Option String := none
  method : Option String := none
  url : Option String := none
  exceptionMessage : Option String := none

/-- The response part of an axios response or error: `status`, `statusText`
and the payload `data` (of an opaque type `α`). -/
structure ResponseInfo (α : Type) where
  status : Nat
  statusText : String
  data : α

/-- An `AxiosError` as the embedded code observes it: its `message`, its
optional `response`, and the two flattened access paths
`error.config.requestId` and `error.request.config.requestId` that the
response interceptor's error handler reads (each `none` when any link of the
chain is undefined). -/
structure AxiosError (α : Type) where
  message : String
  response : Option (ResponseInfo α) := none
  configRequestId : Option String := none
  requestConfigRequestId : Option String := none

/-- The record `\x7b status, statusText, data \x7d` built by `serializeError`. -/
structure SerializedError (α : Type) where
  status : Nat
  statusText : String
  data : α

/-- `serializeError` from `src/src/util.ts` lines 3-16: `undefined` when the
error carries no response (the response object, when present, is always
truthy in JS), otherwise the `\x7b status, statusText, data \x7d` record taken
from the response. -/
def serializeError {α : Type} (error : AxiosError α) : Option (SerializedError α) :=
  match error.response with
  | none => none
  | some r => some ⟨r.status, r.statusText, r.data⟩

/-- The `HTTP Request` log event emitted by the request interceptor (lines
52-61 of the source) after it overwrote the module-level `requestId` with a
fresh uuid. -/
def requestLogEvent (newRequestId : String) (config : RequestConfig) : LogEvent :=
  ⟨"HTTP Request", "INFO", some newRequestId, config.method, config.url, none⟩

/-- The correlation id recovered by the response interceptor's error handler
(lines 83-85 of the source): `error.config.requestId ||
error.request.config.requestId` under JS truthiness. -/
def errorRequestId {α : Type} (error : AxiosError α) : Option String :=
  jsOr error.configRequestId error.requestConfigRequestId

/-- The log event emitted by the response interceptor's error handler (lines
87-101 of the source): the title depends on whether the message equals the
`invalidToken` sentinel exactly. -/
def responseErrorLogEvent {α : Type} (error : AxiosError α) : LogEvent :=
  if error.message = invalidToken then
    ⟨"HTTP call skipped due to a token error", "INFO", errorRequestId error, none, none,
      some error.message⟩
  else
    ⟨"HTTP Response Error", "INFO", errorRequestId error, none, none, some error.message⟩

/-- The response interceptor's error handler (lines 82-104 of the source): it
emits one log event and rethrows `new Error(error.message)`, modelled as the
pair of the event and the rethrown message. -/
def responseErrorInterceptor {α : Type} (error : AxiosError α) : LogEvent × String :=
  (responseErrorLogEvent error, error.message)

/-- One pass of a request through the axios interceptor chain built by the
constructor (lines 49-105 of the source): the request interceptor logs
`HTTP Request` (with the freshly generated id) and then throws when
`!config.url`; in axios that thrown plain `Error` (which carries no `config`
or `request` property) skips dispatch and lands in the response interceptor's
rejection handler. Otherwise the config reaches the transport; a transport
success passes through the identity success handler, and a transport error
goes through the rejection handler. The result is the emitted log events and
the final outcome (response, or rethrown error message). -/
def runRequest {α : Type} (newRequestId : String) (config : RequestConfig)
    (transport : RequestConfig → Except (AxiosError α) (ResponseInfo α)) :
    List LogEvent × Except String (ResponseInfo α) :=
  let reqLog := requestLogEvent newRequestId config
  if truthy config.url then
    match transport config with
    | Except.ok response => ([reqLog], Except.ok response)
    | Except.error e => ([reqLog, responseErrorLogEvent e], Except.error e.message)
  else
    let e : AxiosError α := ⟨missingUrlMessage, none, none, none⟩
    ([reqLog, responseErrorLogEvent e], Except.error e.message)

/-- `HttpClient.get` (lines 134-143 of the source): it builds a fresh config
object `\x7b responseType: json, ...config, headers: resolved \x7d` for the
transport and performs no assignment to the caller's config. The result is
the pair (config the caller observes after the call, config handed to the
transport), plus the resolver invocation count; an error is the rejection of
`createHeadersWithResolvedToken`. -/
def get (tokenResolverFunction : Option TokenResolver) (config : RequestConfig) :
    Except String (RequestConfig × RequestConfig) × Nat :=
  match createHeadersWithResolvedToken tokenResolverFunction (headersArg config.headers) with
  | (Except.error e, n) => (Except.error e, n)
  | (Except.ok h, n) =>
      (Except.ok (config,
        { config with responseType := some (config.responseType.getD "json"),
                      headers := some h }), n)

/-- `HttpClient.post` (lines 148-155 of the source): `config.headers = await
createHeadersWithResolvedToken(config.headers)` mutates the caller-supplied
config object in place, and that same object is handed to the transport.
Result shape as in `get`. -/
def post (tokenResolverFunction : Option TokenResolver) (config : RequestConfig) :
    Except String (RequestConfig × RequestConfig) × Nat :=
  match createHeadersWithResolvedToken tokenResolverFunction (headersArg config.headers) with
  | (Except.error e, n) => (Except.error e, n)
  | (Except.ok h, n) =>
      let mutated := { config with headers := some h }
      (Except.ok (mutated, mutated), n)

/-- `HttpClient.put` (lines 160-167 of the source); same header handling as
`post`. -/
def put (tokenResolverFunction : Option TokenResolver) (config : RequestConfig) :
    Except String (RequestConfig × RequestConfig) × Nat :=
  match createHeadersWithResolvedToken tokenResolverFunction (headersArg config.headers) with
  | (Except.error e, n) => (Except.error e, n)
  | (Except.ok h, n) =>
      let mutated := { config with headers := some h }
      (Except.ok (mutated, mutated), n)

/-- `HttpClient.patch` (lines 172-179 of the source); same header handling as
`post`. -/
def patch (tokenResolverFunction : Option TokenResolver) (config : RequestConfig) :
    Except String (RequestConfig × RequestConfig) × Nat :=
  match createHeadersWithResolvedToken tokenResolverFunction (headersArg config.headers) with
  | (Except.error e, n) => (Except.error e, n)
  | (Except.ok h, n) =>
      let mutated := { config with headers := some h }
      (Except.ok (mutated, mutated), n)

/-- `HttpClient.delete` (lines 184-187 of the source); same header handling as
`post`. -/
def delete (tokenResolverFunction : Option TokenResolver) (config : RequestConfig) :
    Except String (RequestConfig × RequestConfig) × Nat :=
  match createHeadersWithResolvedToken tokenResolverFunction (headersArg config.headers) with
  | (Except.error e, n) => (Except.error e, n)
  | (Except.ok h, n) =>
      let mutated := { config with headers := some h }
      (Except.ok (mutated, mutated), n)

/-- `HttpClient.head` (lines 192-195 of the source); same header handling as
`post`. -/
def head (tokenResolverFunction : Option TokenResolver) (config : RequestConfig) :
    Except String (RequestConfig × RequestConfig) × Nat :=
  match createHeadersWithResolvedToken tokenResolverFunction (headersArg config.headers) with
  | (Except.error e, n) => (Except.error e, n)
  | (Except.ok h, n) =>
      let mutated := { config with headers := some h }
      (Except.ok (mutated, mutated), n)

/-- `HttpClient.options` (lines 200-203 of the source); same header handling
as `post`. -/
def options (tokenResolverFunction : Option TokenResolver) (config : RequestConfig) :
    Except String (RequestConfig × RequestConfig) × Nat :=
  match createHeadersWithResolvedToken tokenResolverFunction (headersArg config.headers) with
  | (Except.error e, n) => (Except.error e, n)
  | (Except.ok h, n) =>
      let mutated := { config with headers := some h }
      (Except.ok (mutated, mutated), n)

/-- The adapter chain built by the constructor's IIFE (lines 37-46 of the
source). Enhancer applications record the opaque options object that was
passed through (`κ` for cache options, `ρ` for retry options). -/
inductive Adapter (κ ρ : Type) where
  | base : Adapter κ ρ
  | cacheEnhanced : Adapter κ ρ → Option κ → Adapter κ ρ
  | retryEnhanced : Adapter κ ρ → Option ρ → Adapter κ ρ

/-- The `HttpClientOptions` constructor argument (lines 206-237 of the
source), restricted to the fields the constructor's client selection reads.
`C` is the opaque type of a pre-built axios instance. -/
structure HttpClientOptions (C κ ρ : Type) where
  client : Option C := none
  enableCache : Option Bool := none
  enableRetry : Option Bool := none
  cacheOptions : Option κ := none
  retryOptions : Option ρ := none

/-- The transport client held by the wrapper: either the caller-supplied axios
instance used verbatim, or a freshly created instance described by its adapter
chain. -/
inductive Client (C κ ρ : Type) where
  | supplied : C → Client C κ ρ
  | created : Adapter κ ρ → Client C κ ρ

/-- The adapter-chain IIFE at lines 37-46 of the source: start from the base
adapter, wrap with the cache enhancer when `enableCache`, then wrap with the
retry enhancer when `enableRetry`. -/
def buildAdapter {κ ρ : Type} (enableCache enableRetry : Bool)
    (cacheOptions : Option κ) (retryOptions : Option ρ) : Adapter κ ρ :=
  let adapters : Adapter κ ρ := Adapter.base
  let adapters := if enableCache then Adapter.cacheEnhanced adapters cacheOptions else adapters
  let adapters := if enableRetry then Adapter.retryEnhanced adapters retryOptions else adapters
  adapters

/-- The client selection `options?.client ?? axios.create(...)` at lines
34-47 of the source, with the `?? false` defaults of lines 32-33; JS `??`
short-circuits, so the adapter chain is not built when a client is supplied. -/
def resolveClient {C κ ρ : Type} (opts : HttpClientOptions C κ ρ) : Client C κ ρ :=
  match opts.client with
  | some c => Client.supplied c
  | none =>
      Client.created (buildAdapter (opts.enableCache.getD false) (opts.enableRetry.getD false)
        opts.cacheOptions opts.retryOptions)

/-- Header object whose `Authorization` key is bound to the empty string: it
contains the key, yet `headers.Authorization` is falsy in JS. -/
def emptyAuthHeaders : Headers :=
  fun k => if k = "Authorization" then some "" else none

/-- Header object whose `Authorization` key is bound to a nonempty value. -/
def truthyAuthHeaders : Headers :=
  fun k => if k = "Authorization" then some "Bearer z" else none

/-- Header object carrying the lowercase key `authorization` only. -/
def lowercaseAuthHeaders (v : String) : Headers :=
  fun k => if k = "authorization" then some v else none

/-- Request config used in concrete evaluations: a GET of
`https://api.example/x` with no headers and no `requestId` field (the library
never sets one). -/
def exampleConfig : RequestConfig :=
  ⟨some "https://api.example/x", some "get", none, none, none⟩

/-- Request config whose URL is the empty string (falsy in JS). -/
def emptyUrlConfig : RequestConfig := ⟨some "", none, none, none, none⟩

/-- Transport that succeeds with a fixed 200 response. -/
def okTransport : RequestConfig → Except (AxiosError Nat) (ResponseInfo Nat) :=
  fun _ => Except.ok ⟨200, "OK", 0⟩

/-- Transport that fails with message `boom`; as axios does, the error carries
the dispatched config, so its `requestId` access paths read that config's
`requestId` field. -/
def boomTransport : RequestConfig → Except (AxiosError Nat) (ResponseInfo Nat) :=
  fun config => Except.error ⟨"boom", none, config.requestId, config.requestId⟩

/-- Empty per-call config, as when a verb method is called without a config
argument. -/
def emptyConfig : RequestConfig := ⟨none, none, none, none, none⟩

/-- Empty header object. -/
def noHeaders : Headers := fun _ => none

end ATHttpClient

namespace ATHttpClient

/-- Claim C1 (counterexample): a header mapping that contains the
`Authorization` key bound to the empty string, with a token resolver
configured, does not make `createHeadersWithResolvedToken` fail: the call
succeeds and the resolver is invoked once, refuting the claim for this
input. -/
theorem claim1_counterexample :
    (emptyAuthHeaders "Authorization").isSome = true ∧
    createHeadersWithResolvedToken (some (Except.ok "tok")) emptyAuthHeaders =
      (Except.ok (setAuth emptyAuthHeaders "tok"), 1) :=
  ⟨rfl, rfl⟩

/-- Claim C1 (amended): for every header mapping whose `Authorization` key
holds a truthy (nonempty) value, if a token resolver is configured,
`createHeadersWithResolvedToken` fails with the configuration-conflict error
and the token resolver is never invoked (count 0); every verb method passing
such headers fails the same way, before its transport delegation (the verb
models below involve no transport at all). -/
theorem claim1_amended (resolve : TokenResolver) (h : Headers)
    (hAuth : truthy (h "Authorization") = true) :
    createHeadersWithResolvedToken (some resolve) h = (Except.error authConflictMessage, 0) ∧
    ∀ config : RequestConfig, config.headers = some h →
      get (some resolve) config = (Except.error authConflictMessage, 0) ∧
      post (some resolve) config = (Except.error authConflictMessage, 0) ∧
      put (some resolve) config = (Except.error authConflictMessage, 0) ∧
      patch (some resolve) config = (Except.error authConflictMessage, 0) ∧
      delete (some resolve) config = (Except.error authConflictMessage, 0) ∧
      head (some resolve) config = (Except.error authConflictMessage, 0) ∧
      options (some resolve) config = (Except.error authConflictMessage, 0) := by
  have hcore :
      createHeadersWithResolvedToken (some resolve) h = (Except.error authConflictMessage, 0) := by
    simp [createHeadersWithResolvedToken, hAuth]
  refine ⟨hcore, ?_⟩
  intro config hc
  have hdrs : headersArg config.headers = h := by simp [headersArg, hc]
  refine ⟨?_, ?_, ?_, ?_, ?_, ?_, ?_⟩ <;>
    simp [get, post, put, patch, delete, head, options, hdrs, hcore]

/-- Witness for the amended claim C1 at a concrete input. -/
theorem claim1_witness :
    createHeadersWithResolvedToken (some (Except.ok "tok")) truthyAuthHeaders =
      (Except.error authConflictMessage, 0) :=
  (claim1_amended (Except.ok "tok") truthyAuthHeaders rfl).1

/-- Claim C2: for every header mapping without an `Authorization` key, with a
token resolver configured that yields token `t`, `createHeadersWithResolvedToken`
returns the input mapping extended with exactly one `Authorization: Bearer t`
entry (every other key unchanged), and the resolver is invoked exactly once. -/
theorem claim2_token_injection (t : String) (h : Headers)
    (hNoAuth : h "Authorization" = none) :
    createHeadersWithResolvedToken (some (Except.ok t)) h = (Except.ok (setAuth h t), 1) ∧
    setAuth h t "Authorization" = some ("Bearer " ++ t) ∧
    ∀ k, k ≠ "Authorization" → setAuth h t k = h k := by
  refine ⟨?_, ?_, ?_⟩
  · simp [createHeadersWithResolvedToken, hNoAuth, truthy]
  · simp [setAuth]
  · intro k hk
    simp [setAuth, hk]

/-- Witness for claim C2 at a concrete input. -/
theorem claim2_witness :
    createHeadersWithResolvedToken (some (Except.ok "tok")) noHeaders =
      (Except.ok (setAuth noHeaders "tok"), 1) :=
  (claim2_token_injection "tok" noHeaders rfl).1

/-- Claim C3: when no token resolver is configured,
`createHeadersWithResolvedToken` returns its input unchanged for every input
(the resolver invocation count is 0), including inputs that already contain
an `Authorization` key. -/
theorem claim3_no_resolver_identity (h : Headers) :
    createHeadersWithResolvedToken none h = (Except.ok h, 0) :=
  rfl

/-- Claim C4: for every request config whose URL is absent or empty, the
interceptor pipeline's outcome is independent of the transport (the request
never reaches the transport layer) and the final outcome is the MissingURL
error message. -/
theorem claim4_missing_url (α : Type) (newRequestId : String) (config : RequestConfig)
    (transport₁ transport₂ : RequestConfig → Except (AxiosError α) (ResponseInfo α))
    (hUrl : truthy config.url = false) :
    runRequest newRequestId config transport₁ = runRequest newRequestId config transport₂ ∧
    (runRequest newRequestId config transport₁).2 = Except.error missingUrlMessage := by
  constructor <;> simp [runRequest, hUrl]

/-- Witness for claim C4 at a concrete input: an empty URL, compared under a
succeeding and a failing transport. -/
theorem claim4_witness :
    runRequest "u1" emptyUrlConfig okTransport = runRequest "u1" emptyUrlConfig boomTransport ∧
    (runRequest "u1" emptyUrlConfig okTransport).2 = Except.error missingUrlMessage :=
  claim4_missing_url Nat "u1" emptyUrlConfig okTransport boomTransport rfl

/-- Claim C5: the response interceptor's error handler always rethrows an
error whose message equals the original error's message; the emitted log
event's title is `HTTP call skipped due to a token error` exactly when the
message equals the `Invalid token` sentinel, and `HTTP Response Error`
otherwise. -/
theorem claim5_error_classification (α : Type) (error : AxiosError α) :
    (responseErrorInterceptor error).2 = error.message ∧
    (error.message = invalidToken →
      (responseErrorInterceptor error).1.title = "HTTP call skipped due to a token error") ∧
    (error.message ≠ invalidToken →
      (responseErrorInterceptor error).1.title = "HTTP Response Error") := by
  refine ⟨rfl, ?_, ?_⟩
  · intro hm
    simp [responseErrorInterceptor, responseErrorLogEvent, hm]
  · intro hm
    simp [responseErrorInterceptor, responseErrorLogEvent, hm]

/-- Witness for claim C5 at concrete inputs: the sentinel message and a
generic message. -/
theorem claim5_witness :
    (responseErrorInterceptor (⟨"Invalid token", none, none, none⟩ : AxiosError Nat)).1.title =
      "HTTP call skipped due to a token error" ∧
    (responseErrorInterceptor (⟨"boom", none, none, none⟩ : AxiosError Nat)).1.title =
      "HTTP Response Error" :=
  ⟨(claim5_error_classification Nat ⟨"Invalid token", none, none, none⟩).2.1 rfl,
   (claim5_error_classification Nat ⟨"boom", none, none, none⟩).2.2 (by decide)⟩

/-- Claim C6 (code bug, evaluated at the failing input): a GET of
`https://api.example/x` is sent while the interceptor writes the fresh
correlation id `u1`, and the transport fails with `boom` carrying the
dispatched config (whose `requestId` field the library never set). The
request-time log event carries `u1`, but the failure log event's `requestId`
is `none`, not the `u1` written at send time: the error handler reads
`error.config.requestId`, which nothing ever writes. -/
theorem claim6_requestid_not_propagated :
    ((runRequest "u1" exampleConfig boomTransport).1.map LogEvent.requestId) =
      [some "u1", none] ∧
    ((runRequest "u1" exampleConfig boomTransport).1.map LogEvent.title) =
      ["HTTP Request", "HTTP Response Error"] ∧
    (runRequest "u1" exampleConfig boomTransport).2 = Except.error "boom" :=
  ⟨rfl, rfl, rfl⟩

/-- Claim C7: a supplied transport client is used unmodified whatever the
cache/retry flags and options are; without one, the created client's adapter
chain is, in fixed order, the base adapter, wrapped by the cache enhancer when
`enableCache`, wrapped in turn by the retry enhancer when `enableRetry`
(retry outermost), and absent flags default to false. -/
theorem claim7_client_composition (C κ ρ : Type) (c : C)
    (ec er : Option Bool) (co : Option κ) (ro : Option ρ) :
    resolveClient ⟨some c, ec, er, co, ro⟩ = Client.supplied c ∧
    resolveClient (⟨none, some true, some true, co, ro⟩ : HttpClientOptions C κ ρ) =
      Client.created (Adapter.retryEnhanced (Adapter.cacheEnhanced Adapter.base co) ro) ∧
    resolveClient (⟨none, some true, some false, co, ro⟩ : HttpClientOptions C κ ρ) =
      Client.created (Adapter.cacheEnhanced Adapter.base co) ∧
    resolveClient (⟨none, some false, some true, co, ro⟩ : HttpClientOptions C κ ρ) =
      Client.created (Adapter.retryEnhanced Adapter.base ro) ∧
    resolveClient (⟨none, none, none, co, ro⟩ : HttpClientOptions C κ ρ) =
      Client.created Adapter.base :=
  ⟨rfl, rfl, rfl, rfl, rfl⟩

/-- Claim C8: `serializeError` returns `none` when the error carries no
response, and otherwise exactly the `status`, `statusText` and `data` of the
error's response. -/
theorem claim8_serialize_error (α : Type) (error : AxiosError α) :
    (error.response = none → serializeError error = none) ∧
    ∀ r, error.response = some r →
      serializeError error = some ⟨r.status, r.statusText, r.data⟩ := by
  constructor
  · intro hr
    simp [serializeError, hr]
  · intro r hr
    simp [serializeError, hr]

/-- Witness for claim C8 at concrete inputs: an error without a response and
an error carrying a 404 response. -/
theorem claim8_witness :
    serializeError (⟨"err", none, none, none⟩ : AxiosError Nat) = none ∧
    serializeError (⟨"err", some ⟨404, "Not Found", 7⟩, none, none⟩ : AxiosError Nat) =
      some ⟨404, "Not Found", 7⟩ :=
  ⟨(claim8_serialize_error Nat ⟨"err", none, none, none⟩).1 rfl,
   (claim8_serialize_error Nat ⟨"err", some ⟨404, "Not Found", 7⟩, none, none⟩).2
     ⟨404, "Not Found", 7⟩ rfl⟩

/-- Claim C9: when header resolution succeeds with mapping `h`, each of post,
put, patch, delete, head and options overwrites the caller-supplied config
object's `headers` field in place with `h` and hands that same object to the
transport, leaving every other field unchanged; get hands the transport a
fresh merged config and leaves the caller's config object unmodified. -/
theorem claim9_config_mutation (tokenResolverFunction : Option TokenResolver)
    (config : RequestConfig) (h : Headers) (n : Nat)
    (hok : createHeadersWithResolvedToken tokenResolverFunction (headersArg config.headers) =
      (Except.ok h, n)) :
    post tokenResolverFunction config =
      (Except.ok ({config with headers := some h}, {config with headers := some h}), n) ∧
    put tokenResolverFunction config =
      (Except.ok ({config with headers := some h}, {config with headers := some h}), n) ∧
    patch tokenResolverFunction config =
      (Except.ok ({config with headers := some h}, {config with headers := some h}), n) ∧
    delete tokenResolverFunction config =
      (Except.ok ({config with headers := some h}, {config with headers := some h}), n) ∧
    head tokenResolverFunction config =
      (Except.ok ({config with headers := some h}, {config with headers := some h}), n) ∧
    options tokenResolverFunction config =
      (Except.ok ({config with headers := some h}, {config with headers := some h}), n) ∧
    get tokenResolverFunction config =
      (Except.ok (config,
        {config with responseType := some (config.responseType.getD "json"),
                     headers := some h}), n) ∧
    ({config with headers := some h}).url = config.url ∧
    ({config with headers := some h}).method = config.method ∧
    ({config with headers := some h}).responseType = config.responseType ∧
    ({config with headers := some h}).requestId = config.requestId := by
  refine ⟨?_, ?_, ?_, ?_, ?_, ?_, ?_, rfl, rfl, rfl, rfl⟩ <;>
    simp [post, put, patch, delete, head, options, get, hok]

/-- Witness for claim C9 at a concrete input: no resolver, empty config. -/
theorem claim9_witness :
    post none emptyConfig =
      (Except.ok ({emptyConfig with headers := some noHeaders},
                  {emptyConfig with headers := some noHeaders}), 0) ∧
    get none emptyConfig =
      (Except.ok (emptyConfig,
        {emptyConfig with responseType := some (emptyConfig.responseType.getD "json"),
                          headers := some noHeaders}), 0) :=
  ⟨(claim9_config_mutation none emptyConfig noHeaders 0 rfl).1,
   (claim9_config_mutation none emptyConfig noHeaders 0 rfl).2.2.2.2.2.2.1⟩

/-- Claim C10: the conflict check tests only that the exact key
`Authorization` maps to a truthy value. With a resolver configured, a mapping
carrying only the lowercase key `authorization` does not raise the conflict:
the resolver is invoked (count 1) and `Authorization: Bearer t` is written
while the lowercase entry survives; likewise a mapping binding
`Authorization` to the empty string does not raise the conflict, and the
Bearer entry overwrites the empty value. -/
theorem claim10_truthiness_check (t v : String) :
    createHeadersWithResolvedToken (some (Except.ok t)) (lowercaseAuthHeaders v) =
      (Except.ok (setAuth (lowercaseAuthHeaders v) t), 1) ∧
    setAuth (lowercaseAuthHeaders v) t "Authorization" = some ("Bearer " ++ t) ∧
    setAuth (lowercaseAuthHeaders v) t "authorization" = some v ∧
    createHeadersWithResolvedToken (some (Except.ok t)) emptyAuthHeaders =
      (Except.ok (setAuth emptyAuthHeaders t), 1) ∧
    setAuth emptyAuthHeaders t "Authorization" = some ("Bearer " ++ t) :=
  ⟨rfl, rfl, rfl, rfl, rfl⟩

end ATHttpClient
